import Mathlib

/-!
Verification of the rooted, symlink-aware VFS backend (`WinFS` in
`src/rust/fs/src/winfs.rs`) against its natural-language specification.

Paths are shallowly embedded as an absolute-flag plus a list of name
components; `RPath.join` follows Rust `Path::join` (an absolute right
operand replaces the left), and `RPath.parent` follows Rust
`Path::parent` (the empty relative path and the bare root have no
parent).  The operating system is embedded as a record `FS` of oracle
functions for the syscalls the backend issues (`symlink_metadata`,
`metadata`, `read_link`, `canonicalize`, directory enumeration).  The
format strings used to build `io::Error` messages are embedded as the
constructors of `ErrMsg`, so that "the error names the offending
target" is a statement about data rather than about substrings.
-/

namespace Fs

/-- A filesystem path: whether it is absolute, plus its name components.
Mirrors Rust `PathBuf` as used by the source (no drive letters, no `.`
normalization — the source never normalizes). -/
structure RPath where
  absolute : Bool
  components : List String
deriving DecidableEq, Repr

/-- Rust `Path::join`: if the right operand is absolute it replaces the
left operand entirely, otherwise the components are appended. -/
def RPath.join (a b : RPath) : RPath :=
  if b.absolute then b else ⟨a.absolute, a.components ++ b.components⟩

/-- Rust `Path::parent`: `None` for the empty relative path and for the
bare root, otherwise the path with its last component removed. -/
def RPath.parent (p : RPath) : Option RPath :=
  match p.components with
  | [] => none
  | _ :: _ => some ⟨p.absolute, p.components.dropLast⟩

/-- Rust `Path::file_name` (defaulted to the empty string): the last
component of the path. -/
def RPath.name (p : RPath) : String := p.components.getLast?.getD ""

/-- The three file types the source classifies (`std::fs::FileType`
restricted to the arms the code matches; any other type hits
`unreachable!` and is outside the model). -/
inductive FileType where
  | file
  | dir
  | symlink
deriving DecidableEq, Repr

/-- A point-in-time metadata record as returned by the metadata
syscalls: file type, byte length, unix permission mode, and the three
optional timestamps (`accessed()/created()/modified()` already folded
through `.ok()` into options). -/
structure Metadata where
  ftype : FileType
  len : Nat
  mode : Nat
  accessed : Option Nat
  created : Option Nat
  modified : Option Nat
deriving DecidableEq, Repr

/-- The `io::ErrorKind` values the source constructs or inspects. -/
inductive IOErrorKind where
  | notFound
  | invalidInput
  | invalidData
  | permissionDenied
  | other
deriving DecidableEq, Repr

/-- The error-message format strings of the source, embedded as data so
that theorems can speak about which path an error names. -/
inductive ErrMsg where
  | os (text : String)
  | absoluteSymlink (target : RPath)
  | orphanSymlink (target : RPath)
  | failedReadLink (linkAbs : RPath) (inner : ErrMsg)
  | notADirectory
  | couldNotCanonicalizeRoot (original : RPath) (causeKind : IOErrorKind) (cause : ErrMsg)
  | statSyncAbsoluteArgument (arg : RPath)
  | syncScandirFailed (inner : ErrMsg)
  | readLinkAfterSymlinkMetadata (path : RPath) (inner : ErrMsg)
deriving DecidableEq, Repr

/-- Rust `io::Error`: a kind plus a message. -/
structure IOError where
  kind : IOErrorKind
  msg : ErrMsg
deriving DecidableEq, Repr

/-- The operating system, as the oracle functions for the syscalls the
backend issues.  `symlinkMeta` is `fs::symlink_metadata` (link-aware),
`followMeta` is `fs::metadata` (follows symlinks), `readLinkRaw` is
`fs::read_link` (the raw on-disk target text), `canonicalizePath` is
`Path::canonicalize`, and `listDir` enumerates a directory's child
names. -/
structure FS where
  symlinkMeta : RPath → Except IOError Metadata
  followMeta : RPath → Except IOError Metadata
  readLinkRaw : RPath → Except IOError RPath
  canonicalizePath : RPath → Except IOError RPath
  listDir : RPath → Except IOError (List String)

/-- `SymlinkBehavior` from `crate::directory`: construction-time mode. -/
inductive SymlinkBehavior where
  | aware
  | oblivious
deriving DecidableEq, Repr

/-- Modelled from the spec: the `Stat` type is imported by the source
from the crate root and is not part of the fragment; per the spec it is
a tagged union over File / Directory / Symlink, each carrying its
`RelativePath`. -/
inductive Stat where
  | file (path : RPath)
  | dir (path : RPath)
  | link (path : RPath)
deriving DecidableEq, Repr

/-- The path carried by a `Stat`. -/
def Stat.path : Stat → RPath
  | .file p => p
  | .dir p => p
  | .link p => p

/-- The file name of a `Stat`, used for the deterministic listing order. -/
def Stat.name (s : Stat) : String := s.path.name

/-- Whether a `Stat` is a plain file. -/
def Stat.isFile : Stat → Bool
  | .file _ => true
  | _ => false

/-- Whether a `Stat` is a directory. -/
def Stat.isDir : Stat → Bool
  | .dir _ => true
  | _ => false

/-- Whether a `Stat` is a symlink. -/
def Stat.isLink : Stat → Bool
  | .link _ => true
  | _ => false

/-- A file handle (`File` from the crate root): carries its path. -/
structure File where
  path : RPath
deriving DecidableEq, Repr

/-- A symlink handle (`Link` from the crate root): carries its path. -/
structure Link where
  path : RPath
deriving DecidableEq, Repr

/-- `PathMetadataKind` from the crate root. -/
inductive PathMetadataKind where
  | file
  | directory
  | symlink
deriving DecidableEq, Repr

/-- Modelled from the spec: the `PathMetadata` struct is imported by the
source from the crate root; per the spec it is a snapshot whose
`is_executable` and `unix_mode` fields are absent on platforms without
permission bits (hence `Option`), and whose `symlink_target` is present
only for symlinks. -/
structure PathMetadata where
  path : RPath
  kind : PathMetadataKind
  length : Nat
  is_executable : Option Bool
  unix_mode : Option Nat
  accessed : Option Nat
  created : Option Nat
  modified : Option Nat
  symlink_target : Option RPath
deriving DecidableEq, Repr

/-- Modelled from the spec: `DirectoryListing` is imported by the source
from the crate root; per the spec it is three ordered sequences of
`Stat` — files, directories, symlinks. -/
structure DirectoryListing where
  files : List Stat
  directories : List Stat
  symlinks : List Stat
deriving DecidableEq, Repr

/-- The `WinFS` value: canonical root, ignore predicate, and
construction-time symlink behavior.  (The executor handle is modelled
away: `spawn_blocking` runs its closure and returns the result.) -/
structure WinFS where
  root : RPath
  ignore : Stat → Bool
  symlink_behavior : SymlinkBehavior

/-- `WinFS::new_with_symlink_behavior`: canonicalize the candidate root,
check it names a directory, and either capture it or fail with a
construction error carrying the original path and the underlying
cause. -/
def new_with_symlink_behavior (fs : FS) (root : RPath) (ignorer : Stat → Bool)
    (symlink_behavior : SymlinkBehavior) : Except ErrMsg WinFS :=
  match (fs.canonicalizePath root).bind (fun canonical =>
      (fs.followMeta canonical).bind (fun metadata =>
        if metadata.ftype = FileType.dir then
          Except.ok canonical
        else
          Except.error ⟨IOErrorKind.invalidInput, ErrMsg.notADirectory⟩)) with
  | .error e => .error (ErrMsg.couldNotCanonicalizeRoot root e.kind e.msg)
  | .ok canonical_root => .ok ⟨canonical_root, ignorer, symlink_behavior⟩

/-- `WinFS::new`: defaults the symlink behavior to `Aware`. -/
def new (fs : FS) (root : RPath) (ignorer : Stat → Bool) : Except ErrMsg WinFS :=
  new_with_symlink_behavior fs root ignorer SymlinkBehavior.aware

/-- `WinFS::is_ignored`: delegate to the ignore predicate. -/
def is_ignored (w : WinFS) (stat : Stat) : Bool := w.ignore stat

/-- `WinFS::file_path`: join the stored root with the file's path,
unconditionally. -/
def file_path (w : WinFS) (file : File) : RPath := w.root.join file.path

/-- `WinFS::read_link`: read the raw on-disk target of the link at
root-joined location; reject an absolute target with an
`Absolute symlink` error; otherwise join the relative target onto the
link's parent, failing with `Symlink without a parent?` when the link
path has no parent; every error is wrapped with the
`Failed to read link` context naming the link's absolute location. -/
def read_link (fs : FS) (w : WinFS) (link : Link) : Except IOError RPath :=
  Except.mapError
    (fun e => ⟨e.kind, ErrMsg.failedReadLink (w.root.join link.path) e.msg⟩)
    ((fs.readLinkRaw (w.root.join link.path)).bind (fun path_buf =>
      if path_buf.absolute then
        Except.error ⟨IOErrorKind.invalidData, ErrMsg.absoluteSymlink path_buf⟩
      else
        match link.path.parent with
        | some parent => Except.ok (parent.join path_buf)
        | none => Except.error ⟨IOErrorKind.invalidData, ErrMsg.orphanSymlink path_buf⟩))

/-- The `let metadata = match self.symlink_behavior { ... }` step of
`WinFS::stat_sync`: the link-aware query in `Aware` mode, the
follow-through query in `Oblivious` mode. -/
def stat_sync_metadata (fs : FS) (w : WinFS) (abs_path : RPath) : Except IOError Metadata :=
  match w.symlink_behavior with
  | .aware => fs.symlinkMeta abs_path
  | .oblivious => fs.followMeta abs_path

/-- Modelled from the spec: `PosixFS::stat_internal` is called by the
source but is not part of the fragment.  Per the spec, `Stat` is a
tagged union over File / Directory / Symlink classified from the
queried file type, and per the source's doc comment the returned `Stat`
is relative to its containing directory (it carries the file name). -/
def stat_internal (abs_path : RPath) (file_type : FileType) : Except IOError (Option Stat) :=
  match file_type with
  | .symlink => .ok (some (Stat.link ⟨false, abs_path.components.getLast?.toList⟩))
  | .dir => .ok (some (Stat.dir ⟨false, abs_path.components.getLast?.toList⟩))
  | .file => .ok (some (Stat.file ⟨false, abs_path.components.getLast?.toList⟩))

/-- `WinFS::stat_sync`: in debug builds reject an absolute argument with
`InvalidInput`; join the path onto the root; query metadata according to
the symlink behavior; classify; convert a `NotFound` failure into the
empty result and propagate every other failure. -/
def stat_sync (debug_assertions : Bool) (fs : FS) (w : WinFS) (relative_path : RPath) :
    Except IOError (Option Stat) :=
  if debug_assertions && relative_path.absolute then
    Except.error ⟨IOErrorKind.invalidInput, ErrMsg.statSyncAbsoluteArgument relative_path⟩
  else
    match (stat_sync_metadata fs w (w.root.join relative_path)).bind
        (fun metadata => stat_internal (w.root.join relative_path) metadata.ftype) with
    | .ok v => .ok v
    | .error err =>
      if err.kind = IOErrorKind.notFound then .ok none else .error err

/-- The `let (kind, symlink_target) = match metadata.file_type() { ... }`
step of `WinFS::path_metadata`: a symlink performs a raw target read
(`tokio::fs::read_link`, not `WinFS::read_link`), with a failure wrapped
as `io::Error::other` naming the path. -/
def path_metadata_kind_target (fs : FS) (abs_path : RPath) (metadata : Metadata) :
    Except IOError (PathMetadataKind × Option RPath) :=
  match metadata.ftype with
  | .symlink =>
    match fs.readLinkRaw abs_path with
    | .error e =>
      .error ⟨IOErrorKind.other, ErrMsg.readLinkAfterSymlinkMetadata abs_path e.msg⟩
    | .ok symlink_target => .ok (PathMetadataKind.symlink, some symlink_target)
  | .dir => .ok (PathMetadataKind.directory, none)
  | .file => .ok (PathMetadataKind.file, none)

/-- `WinFS::path_metadata`: an always link-aware metadata query (the
symlink behavior is not consulted), kind classification with a raw
target read for symlinks, permission-bit fields filled on a unix
platform (`cfg(target_family = "unix")` is the `unix_platform`
parameter; the non-unix arm is modelled from the spec: both fields
absent), and `NotFound` converted into the empty result. -/
def path_metadata (unix_platform : Bool) (fs : FS) (w : WinFS) (path : RPath) :
    Except IOError (Option PathMetadata) :=
  match fs.symlinkMeta (w.root.join path) with
  | .ok metadata =>
    (path_metadata_kind_target fs (w.root.join path) metadata).bind (fun ks =>
      Except.ok (some {
        path := path
        kind := ks.1
        length := metadata.len
        is_executable :=
          if unix_platform then some ((metadata.mode &&& 0o111) != 0) else none
        unix_mode := if unix_platform then some metadata.mode else none
        accessed := metadata.accessed
        created := metadata.created
        modified := metadata.modified
        symlink_target := ks.2 }))
  | .error err =>
    if err.kind = IOErrorKind.notFound then .ok none else .error err

/-- The deterministic listing order: by file name. -/
def statLe (a b : Stat) : Prop := a.name ≤ b.name

instance : DecidableRel statLe := fun a b =>
  inferInstanceAs (Decidable (a.name ≤ b.name))

instance : IsTotal Stat statLe := ⟨fun a b => le_total a.name b.name⟩

instance : IsTrans Stat statLe := ⟨fun _ _ _ hab hbc => le_trans hab hbc⟩

/-- Modelled from the spec: `WinFS::scandir_sync` is called by the
source but is not part of the fragment.  Per the spec (section 4.4): the
directory's children are enumerated and every child is stat'd in one
blocking batch; entries for which the ignore predicate returns true are
dropped; the survivors are partitioned by kind into the three listing
sequences, each in deterministic name-sorted order. -/
def scandir_sync (debug_assertions : Bool) (fs : FS) (w : WinFS) (dir : RPath) :
    Except IOError DirectoryListing :=
  match fs.listDir (w.root.join dir) with
  | .error e => .error e
  | .ok names =>
    (names.mapM (fun n => stat_sync debug_assertions fs w (dir.join ⟨false, [n]⟩))).bind
      (fun opt_stats =>
        let kept := (opt_stats.filterMap id).filter (fun s => ! is_ignored w s)
        Except.ok {
          files := List.insertionSort statLe (kept.filter Stat.isFile)
          directories := List.insertionSort statLe (kept.filter Stat.isDir)
          symlinks := List.insertionSort statLe (kept.filter Stat.isLink) })

/-- `WinFS::scandir`: run `scandir_sync` on the blocking pool and wrap
its failure into one generic I/O error describing that the synchronous
scan failed. -/
def scandir (debug_assertions : Bool) (fs : FS) (w : WinFS) (dir : RPath) :
    Except IOError DirectoryListing :=
  match scandir_sync debug_assertions fs w dir with
  | .ok listing => .ok listing
  | .error e => .error ⟨IOErrorKind.other, ErrMsg.syncScandirFailed e.msg⟩

/-- Whether the second path sits at or below the first (both absolute
and the root's components lead the path's components). -/
def leads : List String → List String → Bool
  | [], _ => true
  | _ :: _, [] => false
  | a :: as, b :: bs => a == b && leads as bs

/-- Whether `p` lies under (at or below) the absolute root `root`. -/
def underRoot (root p : RPath) : Bool :=
  root.absolute && p.absolute && leads root.components p.components

/-! Concrete fixtures used by witnesses and counterexamples. -/

/-- A canonical absolute root directory. -/
def exRoot : RPath := ⟨true, ["repo"]⟩

/-- A not-found I/O error. -/
def exErr : IOError := ⟨IOErrorKind.notFound, ErrMsg.os "no entry"⟩

/-- A filesystem on which every syscall fails with not-found. -/
def exFSEmpty : FS :=
  ⟨fun _ => .error exErr, fun _ => .error exErr, fun _ => .error exErr,
   fun _ => .error exErr, fun _ => .error exErr⟩

/-- A symlink-aware VFS over `exRoot` ignoring nothing. -/
def exW1 : WinFS := ⟨exRoot, fun _ => false, SymlinkBehavior.aware⟩

/-- A symlink-oblivious VFS over `exRoot` ignoring nothing. -/
def exW2 : WinFS := ⟨exRoot, fun _ => false, SymlinkBehavior.oblivious⟩

/-- The absolute on-disk symlink target `/etc/passwd`. -/
def exAbsTarget : RPath := ⟨true, ["etc", "passwd"]⟩

/-- A top-level link handle. -/
def exLink1 : Link := ⟨⟨false, ["lnk"]⟩⟩

/-- A filesystem whose one link's raw target is absolute. -/
def exFS1 : FS := { exFSEmpty with readLinkRaw := fun _ => .ok exAbsTarget }

/-- Link-aware metadata of a symlink entry, 5 bytes, mode `0o644`. -/
def exMeta2 : Metadata := ⟨FileType.symlink, 5, 0o644, none, none, none⟩

/-- Follow-through metadata of a plain file, 10 bytes, mode `0o644`. -/
def exFileMeta2 : Metadata := ⟨FileType.file, 10, 0o644, none, none, none⟩

/-- The relative on-disk symlink target `a.txt`. -/
def exTarget2 : RPath := ⟨false, ["a.txt"]⟩

/-- The relative path of the symlink entry. -/
def exPath2 : RPath := ⟨false, ["lnk"]⟩

/-- A filesystem with one symlink entry whose raw target is `a.txt` and
which resolves (when followed) to a plain file. -/
def exFS2 : FS :=
  { exFSEmpty with
    symlinkMeta := fun _ => .ok exMeta2
    followMeta := fun _ => .ok exFileMeta2
    readLinkRaw := fun _ => .ok exTarget2 }

/-- The snapshot `path_metadata` produces for `exPath2` on `exFS2`. -/
def exPM2 : PathMetadata :=
  ⟨exPath2, PathMetadataKind.symlink, 5, some false, some 0o644,
   none, none, none, some exTarget2⟩

/-- A filesystem with one directory containing one plain file `a.txt`. -/
def exFS3 : FS :=
  { exFSEmpty with
    listDir := fun _ => .ok ["a.txt"]
    symlinkMeta := fun _ => .ok ⟨FileType.file, 10, 0o644, none, none, none⟩ }

/-- The stat of the `a.txt` entry as `scandir` reports it. -/
def exStat3 : Stat := Stat.file ⟨false, ["a.txt"]⟩

/-- The listing `scandir` produces for the root of `exFS3`. -/
def exListing3 : DirectoryListing := ⟨[exStat3], [], []⟩

/-- A link handle whose path has a proper parent directory. -/
def exLink5 : Link := ⟨⟨false, ["dir", "lnk"]⟩⟩

/-- The relative on-disk symlink target `../shared/data.txt`. -/
def exRelTarget5 : RPath := ⟨false, ["..", "shared", "data.txt"]⟩

/-- A filesystem whose one link's raw target is `../shared/data.txt`. -/
def exFS5 : FS := { exFSEmpty with readLinkRaw := fun _ => .ok exRelTarget5 }

/-- A relative path whose entry does not exist. -/
def exPath6 : RPath := ⟨false, ["gone"]⟩

/-- A filesystem with one symlink entry whose raw target is the absolute
path `/etc/passwd`. -/
def exFS7 : FS :=
  { exFSEmpty with
    symlinkMeta := fun _ => .ok exMeta2
    readLinkRaw := fun _ => .ok exAbsTarget }

/-- The snapshot `path_metadata` produces for `exPath2` on `exFS7`:
the absolute raw target lands in `symlink_target`. -/
def exPM7 : PathMetadata :=
  ⟨exPath2, PathMetadataKind.symlink, 5, some false, some 0o644,
   none, none, none, some exAbsTarget⟩

/-- Directory metadata with mode `0o755`. -/
def exDirMeta : Metadata := ⟨FileType.dir, 0, 0o755, none, none, none⟩

/-- A filesystem on which the candidate root canonicalizes to `exRoot`,
a directory. -/
def exFS8 : FS :=
  { exFSEmpty with
    canonicalizePath := fun _ => .ok exRoot
    followMeta := fun _ => .ok exDirMeta }

/-- A relative path naming a plain executable file. -/
def exPath9 : RPath := ⟨false, ["run.sh"]⟩

/-- A filesystem whose one entry is a plain file with mode `0o755`. -/
def exFS9 : FS :=
  { exFSEmpty with
    symlinkMeta := fun _ => .ok ⟨FileType.file, 10, 0o755, none, none, none⟩ }

/-- The snapshot `path_metadata` produces for `exPath9` on `exFS9`. -/
def exPM9 : PathMetadata :=
  ⟨exPath9, PathMetadataKind.file, 10, some true, some 0o755,
   none, none, none, none⟩

/-- A file handle whose path is absolute yet sits below `exRoot`. -/
def exFile10 : File := ⟨⟨true, ["repo", "a.txt"]⟩⟩

/-- Claim C1: for every link whose on-disk raw target is an absolute
path, `read_link` fails with the absolute-symlink path error naming the
offending target, regardless of where the link itself lives under the
root; the absolute target is never silently accepted or returned. -/
theorem c1_read_link_rejects_absolute_target (fs : FS) (w : WinFS) (link : Link)
    (t : RPath) (hread : fs.readLinkRaw (w.root.join link.path) = .ok t)
    (habs : t.absolute = true) :
    read_link fs w link =
      .error ⟨IOErrorKind.invalidData,
        ErrMsg.failedReadLink (w.root.join link.path) (ErrMsg.absoluteSymlink t)⟩ := by
  unfold read_link
  rw [hread]
  simp [Except.bind, Except.mapError, habs]

/-- Witness for C1: the link `lnk` with raw target `/etc/passwd` is
rejected with the absolute-symlink error naming `/etc/passwd`. -/
theorem c1_witness :
    read_link exFS1 exW1 exLink1 =
      .error ⟨IOErrorKind.invalidData,
        ErrMsg.failedReadLink (exW1.root.join exLink1.path)
          (ErrMsg.absoluteSymlink exAbsTarget)⟩ :=
  c1_read_link_rejects_absolute_target exFS1 exW1 exLink1 exAbsTarget rfl rfl

/-- Counterexample for C2: on a symlink-oblivious VFS, `path_metadata`
of a symlink entry (whose resolved target is a plain file) still reports
kind Symlink with `symlink_target` populated, because the implementation
always issues the link-aware metadata query and never consults the
symlink behavior. -/
theorem c2_counterexample :
    exW2.symlink_behavior = SymlinkBehavior.oblivious ∧
    exFS2.symlinkMeta (exW2.root.join exPath2) = .ok exMeta2 ∧
    exMeta2.ftype = FileType.symlink ∧
    exFS2.followMeta (exW2.root.join exPath2) = .ok exFileMeta2 ∧
    exFileMeta2.ftype = FileType.file ∧
    path_metadata true exFS2 exW2 exPath2 = .ok (some exPM2) ∧
    exPM2.kind = PathMetadataKind.symlink ∧
    exPM2.symlink_target = some exTarget2 :=
  ⟨rfl, rfl, rfl, rfl, rfl, rfl, rfl, rfl⟩

/-- Claim C2 (amended): `path_metadata` does not dispatch on the
construction mode — its result is identical in Aware and Oblivious
modes — and a symlink entry always reports kind Symlink with
`symlink_target` populated with the raw target. -/
theorem c2_amended_path_metadata_mode_independent (u : Bool) (fs : FS) (w : WinFS)
    (p : RPath) (m : Metadata) (t : RPath)
    (hmeta : fs.symlinkMeta (w.root.join p) = .ok m)
    (hft : m.ftype = FileType.symlink)
    (hread : fs.readLinkRaw (w.root.join p) = .ok t) :
    (∀ b, path_metadata u fs { w with symlink_behavior := b } p = path_metadata u fs w p) ∧
    path_metadata u fs w p = .ok (some
      { path := p
        kind := PathMetadataKind.symlink
        length := m.len
        is_executable := if u then some ((m.mode &&& 0o111) != 0) else none
        unix_mode := if u then some m.mode else none
        accessed := m.accessed
        created := m.created
        modified := m.modified
        symlink_target := some t }) := by
  constructor
  · intro b
    rfl
  · unfold path_metadata path_metadata_kind_target
    rw [hmeta]
    simp [hft, hread, Except.bind]

/-- Witness for C2 (amended): the oblivious VFS reports the symlink
entry as kind Symlink with its raw target. -/
theorem c2_witness :
    path_metadata true exFS2 exW2 exPath2 = .ok (some exPM2) :=
  (c2_amended_path_metadata_mode_independent true exFS2 exW2 exPath2 exMeta2 exTarget2
    rfl rfl rfl).2

/-- Claim C3: a successful `scandir` listing contains no ignored entry,
its three sequences are partitioned by kind, and each sequence is in
deterministic name-sorted order. -/
theorem c3_scandir_filtered_partitioned_sorted (d : Bool) (fs : FS) (w : WinFS)
    (dir : RPath) (l : DirectoryListing) (h : scandir d fs w dir = .ok l) :
    (∀ s ∈ l.files, is_ignored w s = false ∧ s.isFile = true) ∧
    (∀ s ∈ l.directories, is_ignored w s = false ∧ s.isDir = true) ∧
    (∀ s ∈ l.symlinks, is_ignored w s = false ∧ s.isLink = true) ∧
    List.Sorted statLe l.files ∧ List.Sorted statLe l.directories ∧
    List.Sorted statLe l.symlinks := by
  unfold scandir at h
  cases hs : scandir_sync d fs w dir with
  | error e =>
    rw [hs] at h
    exact absurd h (by simp)
  | ok listing =>
    rw [hs] at h
    injection h with h
    subst h
    unfold scandir_sync at hs
    cases hl : fs.listDir (w.root.join dir) with
    | error e =>
      rw [hl] at hs
      exact absurd hs (by simp)
    | ok names =>
      rw [hl] at hs
      cases hm : names.mapM (fun n => stat_sync d fs w (dir.join ⟨false, [n]⟩)) with
      | error e2 =>
        simp only [hm, Except.bind] at hs
        exact absurd hs (by simp)
      | ok opt_stats =>
        simp only [hm, Except.bind, Except.ok.injEq] at hs
        subst hs
        refine ⟨?_, ?_, ?_, ?_, ?_, ?_⟩
        · intro s hsmem
          rw [List.mem_insertionSort, List.mem_filter] at hsmem
          refine ⟨?_, hsmem.2⟩
          have hk := (List.mem_filter.mp hsmem.1).2
          simpa using hk
        · intro s hsmem
          rw [List.mem_insertionSort, List.mem_filter] at hsmem
          refine ⟨?_, hsmem.2⟩
          have hk := (List.mem_filter.mp hsmem.1).2
          simpa using hk
        · intro s hsmem
          rw [List.mem_insertionSort, List.mem_filter] at hsmem
          refine ⟨?_, hsmem.2⟩
          have hk := (List.mem_filter.mp hsmem.1).2
          simpa using hk
        · exact List.sorted_insertionSort statLe _
        · exact List.sorted_insertionSort statLe _
        · exact List.sorted_insertionSort statLe _

/-- Witness for C3: scanning the root of a one-file directory yields the
file in the files sequence, not ignored. -/
theorem c3_witness :
    scandir false exFS3 exW1 ⟨false, []⟩ = .ok exListing3 ∧
    is_ignored exW1 exStat3 = false ∧ exStat3.isFile = true :=
  ⟨rfl,
   (c3_scandir_filtered_partitioned_sorted false exFS3 exW1 ⟨false, []⟩ exListing3
     rfl).1 exStat3 (by simp [exListing3])⟩

/-- Claim C4: the relative-argument precondition of `stat_sync` is
enforced (by an `InvalidInput` error) only when debug assertions are on;
with them off an absolute path is silently accepted, the join onto the
root degenerates to the absolute path itself, and the result no longer
depends on the root at all — the logical root is escaped. -/
theorem c4_stat_sync_check_debug_only (fs : FS) (w : WinFS) (p : RPath)
    (h : p.absolute = true) :
    stat_sync true fs w p =
      .error ⟨IOErrorKind.invalidInput, ErrMsg.statSyncAbsoluteArgument p⟩ ∧
    w.root.join p = p ∧
    (∀ r, stat_sync false fs { w with root := r } p = stat_sync false fs w p) := by
  have hj : ∀ q : RPath, q.join p = p := by
    intro q
    unfold RPath.join
    simp [h]
  refine ⟨?_, hj w.root, ?_⟩
  · unfold stat_sync
    simp [h]
  · intro r
    unfold stat_sync
    rw [hj, hj]
    rfl

/-- Witness for C4: with debug assertions on, `stat_sync` of the
absolute path `/etc/passwd` fails with `InvalidInput`, and the root join
degenerates to the absolute path. -/
theorem c4_witness :
    stat_sync true exFSEmpty exW1 exAbsTarget =
      .error ⟨IOErrorKind.invalidInput, ErrMsg.statSyncAbsoluteArgument exAbsTarget⟩ ∧
    exW1.root.join exAbsTarget = exAbsTarget :=
  ⟨(c4_stat_sync_check_debug_only exFSEmpty exW1 exAbsTarget rfl).1,
   (c4_stat_sync_check_debug_only exFSEmpty exW1 exAbsTarget rfl).2.1⟩

/-- Claim C5: for a link whose raw on-disk target is relative,
`read_link` returns the link's parent joined with the raw target when
the link path has a parent, fails with the orphan-symlink error when it
has none, and consults nothing of the filesystem beyond the raw link
read (no re-canonicalization, no existence check). -/
theorem c5_read_link_relative_target (fs : FS) (w : WinFS) (link : Link) (t : RPath)
    (hread : fs.readLinkRaw (w.root.join link.path) = .ok t)
    (hrel : t.absolute = false) :
    (∀ parent, link.path.parent = some parent →
      read_link fs w link = .ok (parent.join t)) ∧
    (link.path.parent = none →
      read_link fs w link =
        .error ⟨IOErrorKind.invalidData,
          ErrMsg.failedReadLink (w.root.join link.path) (ErrMsg.orphanSymlink t)⟩) ∧
    (∀ fs2 : FS, fs2.readLinkRaw = fs.readLinkRaw →
      read_link fs2 w link = read_link fs w link) := by
  refine ⟨?_, ?_, ?_⟩
  · intro parent hp
    unfold read_link
    rw [hread]
    simp [Except.bind, Except.mapError, hrel, hp]
  · intro hp
    unfold read_link
    rw [hread]
    simp [Except.bind, Except.mapError, hrel, hp]
  · intro fs2 h2
    unfold read_link
    rw [h2]

/-- Witness for C5: the link `dir/lnk` with raw target
`../shared/data.txt` resolves to `dir/../shared/data.txt`, a path that
need not exist. -/
theorem c5_witness :
    read_link exFS5 exW1 exLink5 = .ok ⟨false, ["dir", "..", "shared", "data.txt"]⟩ :=
  (c5_read_link_relative_target exFS5 exW1 exLink5 exRelTarget5 rfl rfl).1
    ⟨false, ["dir"]⟩ rfl

/-- Claim C6: when the underlying metadata call reports not-found, both
`stat_sync` and `path_metadata` return the empty result rather than an
error, and every other I/O failure is propagated to the caller
unchanged. -/
theorem c6_not_found_is_absence_other_errors_propagate (d u : Bool) (fs : FS)
    (w : WinFS) (p : RPath) (e : IOError)
    (hguard : ¬(d = true ∧ p.absolute = true)) :
    (stat_sync_metadata fs w (w.root.join p) = .error e →
      (e.kind = IOErrorKind.notFound → stat_sync d fs w p = .ok none) ∧
      (e.kind ≠ IOErrorKind.notFound → stat_sync d fs w p = .error e)) ∧
    (fs.symlinkMeta (w.root.join p) = .error e →
      (e.kind = IOErrorKind.notFound → path_metadata u fs w p = .ok none) ∧
      (e.kind ≠ IOErrorKind.notFound → path_metadata u fs w p = .error e)) := by
  have hd : (d && p.absolute) = false := by
    cases hb : d
    · rfl
    · cases hp : p.absolute
      · rfl
      · exact absurd ⟨hb, hp⟩ hguard
  constructor
  · intro herr
    constructor
    · intro hk
      unfold stat_sync
      rw [hd]
      simp [herr, Except.bind, hk]
    · intro hk
      unfold stat_sync
      rw [hd]
      simp [herr, Except.bind, hk]
  · intro herr
    constructor
    · intro hk
      unfold path_metadata
      rw [herr]
      simp [hk]
    · intro hk
      unfold path_metadata
      rw [herr]
      simp [hk]

/-- Witness for C6: on a filesystem where everything reports not-found,
both `stat_sync` and `path_metadata` of a vanished entry return the
empty result. -/
theorem c6_witness :
    stat_sync false exFSEmpty exW1 exPath6 = .ok none ∧
    path_metadata true exFSEmpty exW1 exPath6 = .ok none :=
  ⟨((c6_not_found_is_absence_other_errors_propagate false true exFSEmpty exW1 exPath6
      exErr (by simp)).1 rfl).1 rfl,
   ((c6_not_found_is_absence_other_errors_propagate false true exFSEmpty exW1 exPath6
      exErr (by simp)).2 rfl).1 rfl⟩

/-- Counterexample for C7: the target read performed by `path_metadata`
is a raw `read_link` syscall, not the section-4.2 policy — an absolute
raw target `/etc/passwd` is accepted into `symlink_target`, although the
section-4.2 `read_link` on the same link fails with the absolute-symlink
error. -/
theorem c7_counterexample :
    exFS7.symlinkMeta (exW1.root.join exPath2) = .ok exMeta2 ∧
    exMeta2.ftype = FileType.symlink ∧
    exFS7.readLinkRaw (exW1.root.join exPath2) = .ok exAbsTarget ∧
    exAbsTarget.absolute = true ∧
    path_metadata true exFS7 exW1 exPath2 = .ok (some exPM7) ∧
    exPM7.symlink_target = some exAbsTarget ∧
    read_link exFS7 exW1 ⟨exPath2⟩ =
      .error ⟨IOErrorKind.invalidData,
        ErrMsg.failedReadLink (exW1.root.join exPath2)
          (ErrMsg.absoluteSymlink exAbsTarget)⟩ :=
  ⟨rfl, rfl, rfl, rfl, rfl, rfl, rfl⟩

/-- Claim C7 (amended): when `path_metadata` classifies an entry as a
symlink it performs a raw target read (without the section-4.2 escape
guard, so even an absolute raw target lands in `symlink_target`), and
any failure of that read is surfaced as an I/O error, never as the empty
result. -/
theorem c7_amended_raw_target_read_errors_propagate (u : Bool) (fs : FS) (w : WinFS)
    (p : RPath) (m : Metadata)
    (hmeta : fs.symlinkMeta (w.root.join p) = .ok m)
    (hft : m.ftype = FileType.symlink) :
    (∀ e, fs.readLinkRaw (w.root.join p) = .error e →
      path_metadata u fs w p =
        .error ⟨IOErrorKind.other,
          ErrMsg.readLinkAfterSymlinkMetadata (w.root.join p) e.msg⟩) ∧
    (∀ t, fs.readLinkRaw (w.root.join p) = .ok t →
      path_metadata u fs w p = .ok (some
        { path := p
          kind := PathMetadataKind.symlink
          length := m.len
          is_executable := if u then some ((m.mode &&& 0o111) != 0) else none
          unix_mode := if u then some m.mode else none
          accessed := m.accessed
          created := m.created
          modified := m.modified
          symlink_target := some t })) := by
  constructor
  · intro e he
    unfold path_metadata path_metadata_kind_target
    rw [hmeta]
    simp [hft, he, Except.bind]
  · intro t ht
    unfold path_metadata path_metadata_kind_target
    rw [hmeta]
    simp [hft, ht, Except.bind]

/-- Witness for C7 (amended): the absolute raw target `/etc/passwd`
lands verbatim in `symlink_target`. -/
theorem c7_witness :
    path_metadata true exFS7 exW1 exPath2 = .ok (some exPM7) :=
  (c7_amended_raw_target_read_errors_propagate true exFS7 exW1 exPath2 exMeta2
    rfl rfl).2 exAbsTarget rfl

/-- Claim C8: the constructor canonicalizes the candidate root and
verifies it is a directory; on success the stored root is exactly the
canonical form (absolute whenever canonicalization yields absolute
paths) and every field comes from the inputs; on any failure
(uncanonicalizable, unstattable, or not a directory) it returns a
construction error carrying the original path and the underlying cause,
never a partially valid instance. -/
theorem c8_constructor_canonical_root_or_error (fs : FS) (root : RPath)
    (ign : Stat → Bool) (sb : SymlinkBehavior) :
    (∀ c md, fs.canonicalizePath root = .ok c → fs.followMeta c = .ok md →
      md.ftype = FileType.dir →
      new_with_symlink_behavior fs root ign sb = .ok ⟨c, ign, sb⟩) ∧
    (∀ c md, fs.canonicalizePath root = .ok c → fs.followMeta c = .ok md →
      md.ftype ≠ FileType.dir →
      new_with_symlink_behavior fs root ign sb =
        .error (ErrMsg.couldNotCanonicalizeRoot root IOErrorKind.invalidInput
          ErrMsg.notADirectory)) ∧
    (∀ c e, fs.canonicalizePath root = .ok c → fs.followMeta c = .error e →
      new_with_symlink_behavior fs root ign sb =
        .error (ErrMsg.couldNotCanonicalizeRoot root e.kind e.msg)) ∧
    (∀ e, fs.canonicalizePath root = .error e →
      new_with_symlink_behavior fs root ign sb =
        .error (ErrMsg.couldNotCanonicalizeRoot root e.kind e.msg)) ∧
    (∀ w, new_with_symlink_behavior fs root ign sb = .ok w →
      fs.canonicalizePath root = .ok w.root ∧ w.ignore = ign ∧ w.symlink_behavior = sb ∧
      ((∀ q c2, fs.canonicalizePath q = .ok c2 → c2.absolute = true) →
        w.root.absolute = true)) := by
  refine ⟨?_, ?_, ?_, ?_, ?_⟩
  · intro c md hc hm hd
    unfold new_with_symlink_behavior
    rw [hc]
    simp [hm, hd, Except.bind]
  · intro c md hc hm hd
    unfold new_with_symlink_behavior
    rw [hc]
    simp [hm, hd, Except.bind]
  · intro c e hc hm
    unfold new_with_symlink_behavior
    rw [hc]
    simp [hm, Except.bind]
  · intro e hc
    unfold new_with_symlink_behavior
    rw [hc]
    simp [Except.bind]
  · intro w hw
    unfold new_with_symlink_behavior at hw
    cases hc : fs.canonicalizePath root with
    | error e =>
      rw [hc] at hw
      simp [Except.bind] at hw
    | ok c =>
      rw [hc] at hw
      simp only [Except.bind] at hw
      cases hm : fs.followMeta c with
      | error e =>
        rw [hm] at hw
        simp [Except.bind] at hw
      | ok md =>
        rw [hm] at hw
        by_cases hd : md.ftype = FileType.dir
        · simp [hd, Except.bind] at hw
          rw [← hw]
          exact ⟨rfl, rfl, rfl, fun habs => habs root c hc⟩
        · simp [hd, Except.bind] at hw

/-- Witness for C8: a relative candidate `repo` canonicalizing to the
absolute directory `/repo` yields the fully populated instance. -/
theorem c8_witness :
    new_with_symlink_behavior exFS8 ⟨false, ["repo"]⟩ (fun _ => false)
      SymlinkBehavior.aware = .ok ⟨exRoot, fun _ => false, SymlinkBehavior.aware⟩ :=
  (c8_constructor_canonical_root_or_error exFS8 ⟨false, ["repo"]⟩ (fun _ => false)
    SymlinkBehavior.aware).1 exRoot exDirMeta rfl rfl rfl

/-- Claim C9: in every snapshot `path_metadata` produces on a platform
exposing permission bits, `is_executable` is true iff some bit of the
octal mask `0o111` is set in the entry's mode (and the mode itself is
recorded); on a platform lacking the concept both fields are absent,
never defaulted to false. -/
theorem c9_is_executable_iff_exec_bit (u : Bool) (fs : FS) (w : WinFS) (p : RPath)
    (pm : PathMetadata) (h : path_metadata u fs w p = .ok (some pm)) :
    (∀ md, pm.unix_mode = some md →
      (pm.is_executable = some true ↔ (md &&& 0o111) ≠ 0)) ∧
    (u = true → ∀ m2, fs.symlinkMeta (w.root.join p) = .ok m2 →
      pm.unix_mode = some m2.mode) ∧
    (u = false → pm.is_executable = none ∧ pm.unix_mode = none) := by
  unfold path_metadata at h
  cases hmeta : fs.symlinkMeta (w.root.join p) with
  | error e =>
    rw [hmeta] at h
    by_cases hk : e.kind = IOErrorKind.notFound
    · simp [hk] at h
    · simp [hk] at h
  | ok m =>
    rw [hmeta] at h
    cases hkt : path_metadata_kind_target fs (w.root.join p) m with
    | error e =>
      simp [hkt, Except.bind] at h
    | ok ks =>
      simp only [hkt, Except.bind, Except.ok.injEq, Option.some.injEq] at h
      subst h
      refine ⟨?_, ?_, ?_⟩
      · intro md hmd
        cases hu : u
        · rw [hu] at hmd
          simp at hmd
        · rw [hu] at hmd
          simp at hmd
          subst hmd
          simp [hu, bne_iff_ne]
      · intro hu m2 hm2
        injection hm2 with hm2
        subst hm2
        simp [hu]
      · intro hu
        simp [hu]

/-- Witness for C9: a plain file with mode `0o755` is reported
executable. -/
theorem c9_witness :
    path_metadata true exFS9 exW1 exPath9 = .ok (some exPM9) ∧
    exPM9.is_executable = some true :=
  ⟨rfl,
   ((c9_is_executable_iff_exec_bit true exFS9 exW1 exPath9 exPM9 rfl).1 0o755
     rfl).mpr (by decide)⟩

/-- Counterexample for C10: a file handle whose absolute path sits below
the root — `file_path` returns it verbatim, and the result lies under
the root, not outside it. -/
theorem c10_counterexample :
    exFile10.path.absolute = true ∧
    file_path exW1 exFile10 = exW1.root.join exFile10.path ∧
    underRoot exW1.root (file_path exW1 exFile10) = true := by
  refine ⟨rfl, rfl, ?_⟩
  decide

/-- Claim C10 (amended): `file_path` is the unconditional join of the
stored root with the handle's path, with no containment check; when the
handle's path is absolute the result is that path itself, ignoring the
root, so it may (but need not) lie outside the root. -/
theorem c10_amended_file_path_unconditional_join (w : WinFS) (f : File) :
    file_path w f = w.root.join f.path ∧
    (f.path.absolute = true → file_path w f = f.path) := by
  refine ⟨rfl, ?_⟩
  intro h
  unfold file_path RPath.join
  simp [h]

/-- Witness for C10 (amended): the absolute handle path is returned
verbatim. -/
theorem c10_witness :
    file_path exW1 exFile10 = exFile10.path :=
  (c10_amended_file_path_unconditional_join exW1 exFile10).2 rfl

end Fs
